import Mathlib

/-!
Shallow embedding of the geoserverUpload scripts.

The main batch script (src/unnamed/part_000) discovers shapefiles, groups
sidecar components, zips them, uploads the zip to a GeoServer datastore and
publishes (or updates) the corresponding layer.  The companion utility
(src/listWfsUrls.js) lists published feature types.

Pure fragments of the JavaScript become Lean functions; filesystem contents
and HTTP responses are passed in explicitly; thrown errors become `Except`
values; the side effects of `main` become an explicit list of `Action`s.

JavaScript string primitives are modelled over `List Char` (one `Char`
per code unit; all inputs of interest are ASCII) so that every definition
evaluates by kernel reduction.
-/

namespace GeoUpload

/-- Model of `String.prototype.toLowerCase` restricted to ASCII letters. -/
def lowerChar (c : Char) : Char :=
  if 65 ≤ c.toNat ∧ c.toNat ≤ 90 then Char.ofNat (c.toNat + 32) else c

/-- Lower-case a string, character by character. -/
def strLower (s : String) : String := String.mk (s.data.map lowerChar)

/-- Model of `a.startsWith(b)`. -/
def jsStartsWith (s pre : String) : Bool := pre.data.isPrefixOf s.data

/-- Model of `a.endsWith(b)`. -/
def jsEndsWith (s suf : String) : Bool := suf.data.isSuffixOf s.data

/-- Model of `s.slice(n)` for `0 ≤ n`. -/
def jsDrop (s : String) (n : Nat) : String := String.mk (s.data.drop n)

/-- Model of `s.length` (code-unit count; characters here). -/
def jsLength (s : String) : Nat := s.data.length

/-- Model of the `\s` character class (common whitespace code points). -/
def wsChar (c : Char) : Bool := [9, 10, 11, 12, 13, 32, 160].contains c.toNat

/-- Model of `s.trim()`: strip leading and trailing whitespace. -/
def jsTrim (s : String) : String :=
  String.mk (((s.data.dropWhile wsChar).reverse.dropWhile wsChar).reverse)

/-- Allow-listed sidecar suffixes (part_000 lines 12-27, `allowedSuffixes`). -/
def allowedSuffixes : List String :=
  [".shp", ".shx", ".dbf", ".prj", ".cpg", ".sbn", ".sbx",
   ".qix", ".qpj", ".fix", ".aih", ".ain", ".shp.xml", ".qmd"]

/-- Split a character list at the LAST occurrence of `sep`:
returns the parts before and after it, or `none` when `sep` is absent. -/
def breakLast (sep : Char) : List Char → Option (List Char × List Char)
  | [] => none
  | c :: cs =>
    match breakLast sep cs with
    | some (a, b) => some (c :: a, b)
    | none => if c = sep then some ([], cs) else none

/-- Model of node `path.dirname` for forward-slash paths. -/
def dirname (p : String) : String :=
  match breakLast ('/') p.data with
  | some ([], _) => "/"
  | some (a, _) => String.mk a
  | none => "."

/-- Model of node `path.basename` for forward-slash paths. -/
def pathBasename (p : String) : String :=
  match breakLast ('/') p.data with
  | some (_, b) => String.mk b
  | none => p

/-- Model of node `path.parse(p).name`: the basename with its last
extension removed (a lone leading dot does not start an extension). -/
def parseName (p : String) : String :=
  let b := pathBasename p
  match breakLast ('.') b.data with
  | some ([], _) => b
  | some (a, _) => String.mk a
  | none => b

/-- Model of node `path.join` for one already-clean directory component. -/
def pathJoin (d e : String) : String := d ++ "/" ++ e

/-- The per-entry test of the grouper loop (part_000 lines 131-141):
the lower-cased entry starts with the lower-cased base name and the
remaining suffix is on the allow-list. -/
def componentMatches (baseLower : String) (entry : String) : Bool :=
  let lower := strLower entry
  jsStartsWith lower baseLower && allowedSuffixes.contains (jsDrop lower (jsLength baseLower))

/-- The candidate component paths assembled by `gatherComponents` before the
mandatory-extension check (part_000 lines 124-141): matching directory
entries, joined back onto the directory. -/
def componentCandidates (entries : List String) (shpPath : String) : List String :=
  let dir := dirname shpPath
  let baseLower := strLower (parseName shpPath)
  (entries.filter (componentMatches baseLower)).map (pathJoin dir)

/-- The mandatory extensions (part_000 line 143, `required`). -/
def requiredExts : List String := [".shp", ".shx", ".dbf"]

/-- The error thrown at part_000 line 147 when a mandatory extension is
missing, as data: the missing extension and the triggering primary path. -/
structure MissingComponentError where
  ext : String
  shpPath : String
deriving Repr, DecidableEq

/-- The message of the error thrown at part_000 line 147. -/
def MissingComponentError.message (e : MissingComponentError) : String :=
  "Missing required \"." ++ jsDrop e.ext 1 ++ "\" file for shapefile \"" ++ e.shpPath ++ "\"."

/-- Model of `gatherComponents(shpPath)` (part_000 lines 124-152), with the
directory listing `entries` passed explicitly: build the candidate set, then
fail on the first mandatory extension with no member ending in it. -/
def gatherComponents (entries : List String) (shpPath : String) :
    Except MissingComponentError (List String) :=
  match requiredExts.find?
      (fun ext => !(componentCandidates entries shpPath).any
        (fun f => jsEndsWith (strLower f) ext)) with
  | some ext => .error ⟨ext, shpPath⟩
  | none => .ok (componentCandidates entries shpPath)

/-- Collapse every maximal whitespace run to a single underscore, tracking
whether the previous character was part of a run: the semantics of
`replace(/\s+/g, '_')`. -/
def collapseWsAux : Bool → List Char → List Char
  | _, [] => []
  | inRun, c :: cs =>
    if wsChar c then
      (if inRun then [] else ['_']) ++ collapseWsAux true cs
    else c :: collapseWsAux false cs

/-- Model of `sanitizeName` (part_000 lines 154-156):
`name.trim().replace(/\s+/g, '_')`. -/
def sanitizeName (name : String) : String :=
  String.mk (collapseWsAux false (jsTrim name).data)

/-- UTF-8 bytes of a code point, as natural numbers. -/
def utf8Bytes (n : Nat) : List Nat :=
  if n < 128 then [n]
  else if n < 2048 then [192 + n / 64, 128 + n % 64]
  else if n < 65536 then [224 + n / 4096, 128 + (n / 64) % 64, 128 + n % 64]
  else [240 + n / 262144, 128 + (n / 4096) % 64, 128 + (n / 64) % 64, 128 + n % 64]

/-- Upper-case hexadecimal digit. -/
def hexDigit (n : Nat) : Char :=
  if n < 10 then Char.ofNat (48 + n) else Char.ofNat (55 + n)

/-- Percent-encode one byte. -/
def percentEncodeByte (b : Nat) : List Char :=
  ['%', hexDigit (b / 16), hexDigit (b % 16)]

/-- The characters `encodeURIComponent` leaves unescaped
(alphanumerics and `- _ . ! ~ * ' ( )`; code point 39 is the apostrophe). -/
def uriUnreserved (c : Char) : Bool :=
  (48 ≤ c.toNat && c.toNat ≤ 57) || (65 ≤ c.toNat && c.toNat ≤ 90) ||
    (97 ≤ c.toNat && c.toNat ≤ 122) ||
    ['-', '_', '.', '!', '~', '*', '(', ')'].contains c || c.toNat = 39

/-- Model of the JavaScript global `encodeURIComponent`. -/
def encodeURIComponent (s : String) : String :=
  String.mk (s.data.flatMap (fun c =>
    if uriUnreserved c then [c]
    else (utf8Bytes c.toNat).flatMap percentEncodeByte))

/-- An HTTP response as the scripts observe it: status, status text, body. -/
structure Response where
  status : Nat
  statusText : String
  body : String
deriving Repr, DecidableEq

/-- Model of the fetch-API `response.ok`: status in the 2xx success range. -/
def Response.ok (r : Response) : Bool :=
  decide (200 ≤ r.status) && decide (r.status < 300)

/-- HTTP method of a request issued by the scripts. -/
inductive Method
  | get
  | post
  | put
deriving Repr, DecidableEq

/-- An HTTP request as issued by the scripts. -/
structure Request where
  method : Method
  url : String
  body : String
deriving Repr, DecidableEq

/-- Model of `buildAuthHeader` (part_000 lines 171-174), with the base64
token kept abstract as the pair it encodes. -/
structure AuthHeader where
  username : String
  password : String
deriving Repr, DecidableEq

/-- The `URLSearchParams` built by `uploadDatastoreZip` (part_000 lines
177-182): `charset` and `configure` always, `update=overwrite` when the
overwrite flag is set. -/
def uploadParams (overwrite : Bool) : List (String × String) :=
  [("charset", "UTF-8"), ("configure", "none")] ++
    (if overwrite then [("update", "overwrite")] else [])

/-- Model of `URLSearchParams.toString` for values needing no escaping. -/
def searchParamsToString (ps : List (String × String)) : String :=
  String.intercalate ("&") (ps.map (fun p => p.1 ++ "=" ++ p.2))

/-- The upload target URL (part_000 line 184). -/
def uploadTarget (geoserverUrl workspace storeName : String) (overwrite : Bool) : String :=
  geoserverUrl ++ "/rest/workspaces/" ++ encodeURIComponent workspace ++
    "/datastores/" ++ encodeURIComponent storeName ++ "/file.shp?" ++
    searchParamsToString (uploadParams overwrite)

/-- The error thrown at part_000 lines 198-200 on a non-2xx upload
response, as data. -/
structure UploadError where
  status : Nat
  statusText : String
  body : String
deriving Repr, DecidableEq

/-- Model of `uploadDatastoreZip` (part_000 lines 176-202): the PUT request
it issues (zip bytes as body) and its outcome given the response. -/
def uploadDatastoreZip (geoserverUrl workspace storeName zipBytes : String)
    (overwrite : Bool) (resp : Response) : Request × Except UploadError Unit :=
  (⟨.put, uploadTarget geoserverUrl workspace storeName overwrite, zipBytes⟩,
   if resp.ok then .ok () else .error ⟨resp.status, resp.statusText, resp.body⟩)

/-- The JSON feature-type descriptor `JSON.stringify(featurePayload)`
(part_000 lines 213-219, 228), for names needing no JSON escaping. -/
def featurePayload (layerName nativeName : String) : String :=
  "\x7b\"featureType\":\x7b\"name\":\"" ++ layerName ++ "\",\"nativeName\":\"" ++
    nativeName ++ "\",\"enabled\":true\x7d\x7d"

/-- The arguments of `publishLayer` (part_000 lines 204-212). -/
structure PublishConfig where
  geoserverUrl : String
  workspace : String
  storeName : String
  layerName : String
  nativeName : String
  overwrite : Bool
deriving Repr, DecidableEq

/-- The create URL posted to (part_000 line 221). -/
def publishUrl (cfg : PublishConfig) : String :=
  cfg.geoserverUrl ++ "/rest/workspaces/" ++ encodeURIComponent cfg.workspace ++
    "/datastores/" ++ encodeURIComponent cfg.storeName ++
    "/featuretypes?recalculate=nativebbox,latlonbbox"

/-- The update URL PUT to on overwrite-after-conflict (part_000 line 243). -/
def adjustUrl (cfg : PublishConfig) : String :=
  cfg.geoserverUrl ++ "/rest/workspaces/" ++ encodeURIComponent cfg.workspace ++
    "/datastores/" ++ encodeURIComponent cfg.storeName ++ "/featuretypes/" ++
    encodeURIComponent cfg.layerName ++ "?recalculate=nativebbox,latlonbbox"

/-- Terminal outcome of `publishLayer`: a plain return after create success,
a skip warning (line 237), or one of the two thrown errors (lines 255, 263),
kept with their status data. -/
inductive PublishResult
  | published
  | skipped
  | publishError (status : Nat) (statusText : String) (body : String)
  | updateError (status : Nat) (statusText : String) (body : String)
deriving Repr, DecidableEq

/-- Model of `publishLayer` (part_000 lines 204-266): the requests it
issues, in order, and its terminal outcome.  `createResp` answers the POST;
`updateResp` answers the conditional PUT. -/
def publishLayer (cfg : PublishConfig) (createResp updateResp : Response) :
    List Request × PublishResult :=
  let payload := featurePayload cfg.layerName cfg.nativeName
  let createReq : Request := ⟨.post, publishUrl cfg, payload⟩
  if createResp.ok then ([createReq], .published)
  else if createResp.status = 409 then
    if cfg.overwrite = false then ([createReq], .skipped)
    else
      let adjustReq : Request := ⟨.put, adjustUrl cfg, payload⟩
      if updateResp.ok then ([createReq, adjustReq], .published)
      else ([createReq, adjustReq],
        .updateError updateResp.status updateResp.statusText updateResp.body)
  else ([createReq], .publishError createResp.status createResp.statusText createResp.body)

/-- The options record built by `parseArgs` (part_000 lines 29-104).
`storePfx`/`layerPfx` embed the source's store/layer prefix options. -/
structure Options where
  directory : String
  geoserverUrl : String
  workspace : String
  username : String
  password : String
  storePfx : String
  layerPfx : String
  overwrite : Bool
deriving Repr

/-- The names `main` computes per dataset (part_000 lines 287-292, 328):
store and layer names from the trimmed, sanitized base name with the
configured prefixes, and the native name from the raw base name. -/
structure DatasetNames where
  storeName : String
  layerName : String
  nativeName : String
deriving Repr, DecidableEq

/-- Per-dataset name computation of `main` (part_000 lines 287-292, 328). -/
def datasetNames (storePfx layerPfx shpPath : String) : DatasetNames :=
  let rawBaseName := parseName shpPath
  let baseName := jsTrim rawBaseName
  { storeName := storePfx ++ sanitizeName baseName
    layerName := layerPfx ++ sanitizeName baseName
    nativeName := rawBaseName }

/-- A directory tree snapshot, as `readdir(..., withFileTypes)` reveals it. -/
inductive FsEntry
  | file (name : String)
  | dir (name : String) (entries : List FsEntry)

mutual

/-- Model of `collectShapefiles`/`walk` (part_000 lines 106-122) on a
directory listing: files whose lower-cased name ends in `.shp`, in listing
order, recursing into subdirectories in place. -/
def collectShapefiles (d : String) : List FsEntry → List String
  | [] => []
  | e :: rest => collectEntry d e ++ collectShapefiles d rest

/-- One entry of the walk of part_000 lines 108-118. -/
def collectEntry (d : String) : FsEntry → List String
  | .file n => if jsEndsWith (strLower n) (".shp") then [pathJoin d n] else []
  | .dir n sub => collectShapefiles (pathJoin d n) sub

end

/-- An observable side effect of `main` (part_000 lines 268-357), in
program order: building the auth header, creating the temp directory,
removing a file, invoking the zip archiver, issuing an HTTP request,
removing the temp directory. -/
inductive Action
  | buildAuth
  | mkTempDir
  | removeFile (p : String)
  | archive (zipPath : String) (sources : List String)
  | request (r : Request)
  | removeTempDir
deriving Repr, DecidableEq

/-- The environment one dataset iteration of `main` runs against: the
primary file's directory listing, the clock value used in the zip name,
whether the archiver succeeds, the zip bytes, and the three responses. -/
structure DatasetEnv where
  entries : List String
  now : Nat
  zipOk : Bool
  zipBytes : String
  uploadResp : Response
  createResp : Response
  updateResp : Response

/-- The zip path `createZip` builds (part_000 lines 160, 306). -/
def zipPathFor (tempDir storeName : String) (now : Nat) : String :=
  pathJoin tempDir (storeName ++ "-" ++ toString now ++ ".zip")

/-- One iteration of the loop of `main` (part_000 lines 286-342) as its
action trace: gather components (skip the dataset on error), create the
zip (`createZip` first force-removes any stale zip, then invokes the
archiver; on failure the dataset is skipped with no cleanup since
`zipPath` was never assigned), then upload and publish, with the zip
removed in the `finally` block whatever their outcome. -/
def processDataset (opts : Options) (tempDir : String) (env : DatasetEnv)
    (shpPath : String) : List Action :=
  let names := datasetNames opts.storePfx opts.layerPfx shpPath
  match gatherComponents env.entries shpPath with
  | .error _ => []
  | .ok componentPaths =>
    let zipPath := zipPathFor tempDir names.storeName env.now
    let zipActions := [Action.removeFile zipPath, Action.archive zipPath componentPaths]
    if env.zipOk = false then zipActions
    else
      let upload := uploadDatastoreZip opts.geoserverUrl opts.workspace names.storeName
        env.zipBytes opts.overwrite env.uploadResp
      match upload.2 with
      | .error _ => zipActions ++ [Action.request upload.1, Action.removeFile zipPath]
      | .ok _ =>
        let cfg : PublishConfig :=
          ⟨opts.geoserverUrl, opts.workspace, names.storeName, names.layerName,
           names.nativeName, opts.overwrite⟩
        let pub := publishLayer cfg env.createResp env.updateResp
        zipActions ++ [Action.request upload.1] ++ pub.1.map Action.request ++
          [Action.removeFile zipPath]

/-- The world `main` runs against: the directory tree under the root, the
temp directory name `mkdtemp` yields, and each dataset's environment. -/
structure RunEnv where
  tree : List FsEntry
  tempDir : String
  envFor : String → DatasetEnv

/-- Model of `main` (part_000 lines 268-357) as its action trace: discover
shapefiles; if none, return with no further effects; otherwise build the
auth header, create the temp directory, process each dataset in discovery
order, and finally remove the temp directory. -/
def mainRun (opts : Options) (env : RunEnv) : List Action :=
  if (collectShapefiles opts.directory env.tree).isEmpty then []
  else
    [Action.buildAuth, Action.mkTempDir] ++
      (collectShapefiles opts.directory env.tree).flatMap
        (fun p => processDataset opts env.tempDir (env.envFor p) p) ++
      [Action.removeTempDir]

/-- A JSON value, as the listing utility's payload (listWfsUrls.js). -/
inductive JsonVal
  | null
  | bool (b : Bool)
  | num (n : Int)
  | str (s : String)
  | arr (xs : List JsonVal)
  | obj (fields : List (String × JsonVal))

/-- JavaScript property access `v?.k`: `none` models `undefined` (missing
field, or access on a non-object). -/
def getField : JsonVal → String → Option JsonVal
  | .obj fields, k => (fields.find? (fun f => f.1 == k)).map (fun f => f.2)
  | _, _ => none

/-- JavaScript truthiness of a JSON value. -/
def truthy : JsonVal → Bool
  | .null => false
  | .bool b => b
  | .num n => !(n == 0)
  | .str s => !(s == "")
  | .arr _ => true
  | .obj _ => true

/-- The optional chain `payload?.featureTypes?.featureType`
(listWfsUrls.js line 105), `none` standing for `undefined`. -/
def rawFeatureType (payload : JsonVal) : Option JsonVal :=
  match getField payload ("featureTypes") with
  | none => none
  | some ft => getField ft ("featureType")

/-- The normalization of listWfsUrls.js lines 105-109: `?? []` turns
`undefined`/`null` into the empty list, an array is returned as is, and
otherwise a truthy value is wrapped in a singleton list. -/
def normalizeFeatureTypes (payload : JsonVal) : List JsonVal :=
  match rawFeatureType payload with
  | none => []
  | some .null => []
  | some (.arr xs) => xs
  | some v => if truthy v then [v] else []

/-- The error thrown at listWfsUrls.js lines 99-101, as data. -/
structure FetchError where
  status : Nat
  statusText : String
  body : String
deriving Repr, DecidableEq

/-- The listing URL (listWfsUrls.js lines 83-85). -/
def featureTypesUrl (geoserverUrl workspace : String) : String :=
  geoserverUrl ++ "/rest/workspaces/" ++ encodeURIComponent workspace ++
    "/featuretypes.json?count=10000&startIndex=0"

/-- Model of `fetchFeatureTypes` (listWfsUrls.js lines 82-110): the GET
request and the outcome.  `payload` is the parsed JSON body of a success
response.  A 404 yields the empty list before the `ok` check; any other
non-2xx response is an error carrying status and body. -/
def fetchFeatureTypes (geoserverUrl workspace : String) (resp : Response)
    (payload : JsonVal) : Request × Except FetchError (List JsonVal) :=
  (⟨.get, featureTypesUrl geoserverUrl workspace, ""⟩,
   if resp.status = 404 then .ok []
   else if resp.ok = false then .error ⟨resp.status, resp.statusText, resp.body⟩
   else .ok (normalizeFeatureTypes payload))

example : sanitizeName ("My Parcels") = "My_Parcels" := by decide
example : sanitizeName ("  a \t b  ") = "a_b" := by decide
example : componentMatches ("lake") ("lake_2.shp") = false := by decide
example : componentMatches ("lake") ("LAKE.DBF") = true := by decide
example : gatherComponents ["a.shp", "a.shx", "a.dbf"] ("d/a.shp") =
    .ok ["d/a.shp", "d/a.shx", "d/a.dbf"] := by rfl
example : gatherComponents ["lake.shp", "lake.shx"] ("d/lake.shp") =
    .error ⟨".dbf", "d/lake.shp"⟩ := by rfl

/-- Claim C1: when the feature-type create POST answers 409, the
orchestrator with the overwrite flag unset terminates skipped — not an
error — having issued only the one POST; with the flag set it issues
exactly one PUT of the same descriptor to the existing feature-type
resource and no second POST, terminating published on update success and
in an update error carrying status and body on update failure. -/
theorem publishLayer_conflict_behaviour (cfg : PublishConfig)
    (createResp updateResp : Response) (h : createResp.status = 409) :
    (cfg.overwrite = false →
      publishLayer cfg createResp updateResp =
        ([⟨.post, publishUrl cfg, featurePayload cfg.layerName cfg.nativeName⟩],
         .skipped)) ∧
    (cfg.overwrite = true →
      (publishLayer cfg createResp updateResp).1 =
        [⟨.post, publishUrl cfg, featurePayload cfg.layerName cfg.nativeName⟩,
         ⟨.put, adjustUrl cfg, featurePayload cfg.layerName cfg.nativeName⟩] ∧
      (updateResp.ok = true →
        (publishLayer cfg createResp updateResp).2 = .published) ∧
      (updateResp.ok = false →
        (publishLayer cfg createResp updateResp).2 =
          .updateError updateResp.status updateResp.statusText updateResp.body)) := by
  have hok : createResp.ok = false := by simp [Response.ok, h]
  refine ⟨fun hov => ?_, fun hov => ⟨?_, fun hu => ?_, fun hu => ?_⟩⟩
  · simp [publishLayer, hok, h, hov]
  · cases hu : updateResp.ok <;> simp [publishLayer, hok, h, hov, hu]
  · simp [publishLayer, hok, h, hov, hu]
  · simp [publishLayer, hok, h, hov, hu]

/-- Witness for C1 at concrete inputs: a 409 with overwrite unset skips
with only the POST issued; a 409 with overwrite set and a 2xx update
answer terminates published. -/
theorem publishLayer_conflict_behaviour_witness :
    (publishLayer ⟨"http://gs", "ws", "s1", "l1", "l 1", false⟩
        ⟨409, "Conflict", "exists"⟩ ⟨500, "Server Error", "boom"⟩ =
      ([⟨.post, publishUrl ⟨"http://gs", "ws", "s1", "l1", "l 1", false⟩,
          featurePayload ("l1") ("l 1")⟩], .skipped)) ∧
    (publishLayer ⟨"http://gs", "ws", "s1", "l1", "l 1", true⟩
        ⟨409, "Conflict", "exists"⟩ ⟨200, "OK", "done"⟩).2 = .published :=
  ⟨(publishLayer_conflict_behaviour _ _ ⟨500, "Server Error", "boom"⟩ rfl).1 rfl,
   ((publishLayer_conflict_behaviour _ _ _ rfl).2 rfl).2.1 rfl⟩

/-- Claim C4: the upload client PUTs the bundle bytes to
`{base}/rest/workspaces/{ws}/datastores/{store}/file.shp` with
`charset=UTF-8` and `configure=none`, adding `update=overwrite` exactly
when the overwrite flag is set, and a non-2xx response is an error
carrying the status code and the response body. -/
theorem uploadDatastoreZip_contract (g w s zb : String) (ow : Bool) (resp : Response) :
    (uploadDatastoreZip g w s zb ow resp).1.method = .put ∧
    (uploadDatastoreZip g w s zb ow resp).1.body = zb ∧
    (uploadDatastoreZip g w s zb ow resp).1.url =
      g ++ "/rest/workspaces/" ++ encodeURIComponent w ++ "/datastores/" ++
        encodeURIComponent s ++ "/file.shp?" ++
        (if ow then "charset=UTF-8&configure=none&update=overwrite"
         else "charset=UTF-8&configure=none") ∧
    ((uploadDatastoreZip g w s zb ow resp).2 =
        .error ⟨resp.status, resp.statusText, resp.body⟩ ↔ resp.ok = false) := by
  refine ⟨rfl, rfl, ?_, ?_⟩
  · cases ow <;> rfl
  · cases hok : resp.ok <;> simp [uploadDatastoreZip, hok]

/-- Claim C5, counterexample: for the primary file
`shpfiles/ My Parcels .shp` the publish descriptor's native name is the
raw base name `" My Parcels "`, not the trimmed base name `"My Parcels"`
the claim states, while the store name is the sanitized `My_Parcels`. -/
theorem datasetNames_nativeName_not_trimmed :
    (datasetNames ("") ("") ("shpfiles/ My Parcels .shp")).nativeName = " My Parcels " ∧
    jsTrim (" My Parcels ") = "My Parcels" ∧
    (datasetNames ("") ("") ("shpfiles/ My Parcels .shp")).nativeName ≠ "My Parcels" ∧
    (datasetNames ("") ("") ("shpfiles/ My Parcels .shp")).storeName = "My_Parcels" := by
  decide

/-- Claim C5 as amended: store and layer names are the configured prefix
followed by the base name trimmed and with every whitespace run collapsed
to one underscore (so `My Parcels` becomes `My_Parcels`), while the native
name is the original base name, unsanitized and NOT trimmed. -/
theorem datasetNames_contract (spfx lpfx shpPath : String) :
    (datasetNames spfx lpfx shpPath).storeName =
      spfx ++ sanitizeName (jsTrim (parseName shpPath)) ∧
    (datasetNames spfx lpfx shpPath).layerName =
      lpfx ++ sanitizeName (jsTrim (parseName shpPath)) ∧
    (datasetNames spfx lpfx shpPath).nativeName = parseName shpPath ∧
    sanitizeName ("My Parcels") = "My_Parcels" :=
  ⟨rfl, rfl, rfl, by decide⟩

/-- Claim C7: when discovery finds no primary dataset files, the run
performs no effects at all: no credential building, no temp directory,
no network requests. -/
theorem no_datasets_no_effects (opts : Options) (env : RunEnv)
    (h : collectShapefiles opts.directory env.tree = []) :
    mainRun opts env = [] ∧
    Action.buildAuth ∉ mainRun opts env ∧
    Action.mkTempDir ∉ mainRun opts env ∧
    ∀ r : Request, Action.request r ∉ mainRun opts env := by
  have hm : mainRun opts env = [] := by simp [mainRun, h]
  exact ⟨hm, by simp [hm], by simp [hm], fun r => by simp [hm]⟩

/-- Witness for C7: a root whose tree holds no `.shp` file yields an
empty run trace. -/
theorem no_datasets_no_effects_witness :
    mainRun ⟨"shpfiles", "http://gs", "ws", "u", "pw", "", "", false⟩
      ⟨[FsEntry.file ("readme.txt"), FsEntry.dir ("sub") []], "tmp",
       fun _ => ⟨[], 0, true, "", ⟨200, "OK", ""⟩, ⟨200, "OK", ""⟩, ⟨200, "OK", ""⟩⟩⟩ = [] :=
  (no_datasets_no_effects ⟨"shpfiles", "http://gs", "ws", "u", "pw", "", "", false⟩
    ⟨[FsEntry.file ("readme.txt"), FsEntry.dir ("sub") []], "tmp",
     fun _ => ⟨[], 0, true, "", ⟨200, "OK", ""⟩, ⟨200, "OK", ""⟩, ⟨200, "OK", ""⟩⟩⟩
    (by rfl)).1

/-- Claim C9: in the listing utility, a 404 answer to the feature-type
listing yields the empty list rather than an error, and any other non-2xx
answer is an error carrying the status and the response body. -/
theorem fetchFeatureTypes_status_handling (g w : String) (resp : Response)
    (payload : JsonVal) :
    (resp.status = 404 → (fetchFeatureTypes g w resp payload).2 = .ok []) ∧
    (resp.status ≠ 404 → resp.ok = false →
      (fetchFeatureTypes g w resp payload).2 =
        .error ⟨resp.status, resp.statusText, resp.body⟩) := by
  constructor
  · intro h404
    simp [fetchFeatureTypes, h404]
  · intro h404 hok
    simp [fetchFeatureTypes, h404, hok]

/-- Witness for C9: a 404 answer gives the empty list; a 500 answer gives
the error with its status and body. -/
theorem fetchFeatureTypes_status_handling_witness :
    (fetchFeatureTypes ("http://gs") ("ws") ⟨404, "Not Found", "gone"⟩ .null).2 =
      .ok [] ∧
    (fetchFeatureTypes ("http://gs") ("ws") ⟨500, "Server Error", "boom"⟩ .null).2 =
      .error ⟨500, "Server Error", "boom"⟩ :=
  ⟨(fetchFeatureTypes_status_handling _ _ _ .null).1 rfl,
   (fetchFeatureTypes_status_handling _ _ _ .null).2 (by decide) rfl⟩

/-- Claim C10: the feature-type payload is normalized at the public
interface: an absent or null `featureTypes.featureType` field yields the
empty list, a single non-array object yields the one-element list holding
it, and an array is returned as is. -/
theorem normalizeFeatureTypes_contract (payload : JsonVal) :
    (rawFeatureType payload = none → normalizeFeatureTypes payload = []) ∧
    (rawFeatureType payload = some .null → normalizeFeatureTypes payload = []) ∧
    (∀ fields, rawFeatureType payload = some (.obj fields) →
      normalizeFeatureTypes payload = [.obj fields]) ∧
    (∀ xs, rawFeatureType payload = some (.arr xs) →
      normalizeFeatureTypes payload = xs) := by
  refine ⟨fun h => ?_, fun h => ?_, fun fields h => ?_, fun xs h => ?_⟩ <;>
    simp [normalizeFeatureTypes, h, truthy]

/-- Witness for C10 at concrete payloads: a payload with no
`featureTypes` field, one with a null `featureType`, one with a single
object, and one with an array. -/
theorem normalizeFeatureTypes_contract_witness :
    normalizeFeatureTypes (.obj []) = [] ∧
    normalizeFeatureTypes
      (.obj [("featureTypes", .obj [("featureType", .null)])]) = [] ∧
    normalizeFeatureTypes
      (.obj [("featureTypes", .obj [("featureType", .obj [("name", .str ("a"))])])]) =
      [.obj [("name", .str ("a"))]] ∧
    normalizeFeatureTypes
      (.obj [("featureTypes", .obj [("featureType", .arr [.num 1, .num 2])])]) =
      [.num 1, .num 2] :=
  ⟨(normalizeFeatureTypes_contract _).1 rfl,
   (normalizeFeatureTypes_contract _).2.1 rfl,
   (normalizeFeatureTypes_contract _).2.2.1 [("name", .str ("a"))] rfl,
   (normalizeFeatureTypes_contract _).2.2.2 [.num 1, .num 2] rfl⟩

theorem pathJoin_right_injective {d a b : String} (h : pathJoin d a = pathJoin d b) :
    a = b := by
  have hdata : (d ++ "/").data ++ a.data = (d ++ "/").data ++ b.data := by
    simpa [pathJoin, String.data_append] using congrArg String.data h
  have hab : a.data = b.data := (List.append_right_inj _).mp hdata
  calc a = String.mk a.data := rfl
    _ = String.mk b.data := by rw [hab]
    _ = b := rfl

/-- Claim C2: the grouper includes a sibling directory entry exactly when
its lower-cased name starts with the lower-cased base name and the
remainder equals an allow-listed suffix; a superset-prefix base name whose
remainder is not an allow-listed suffix is therefore rejected. -/
theorem grouper_membership (entries : List String) (shpPath e : String)
    (he : e ∈ entries) :
    pathJoin (dirname shpPath) e ∈ componentCandidates entries shpPath ↔
      (jsStartsWith (strLower e) (strLower (parseName shpPath)) = true ∧
       jsDrop (strLower e) (jsLength (strLower (parseName shpPath))) ∈ allowedSuffixes) := by
  unfold componentCandidates
  constructor
  · intro hmem
    obtain ⟨a, ha, hEq⟩ := List.mem_map.mp hmem
    obtain ⟨hamem, hmatch⟩ := List.mem_filter.mp ha
    have hae : a = e := pathJoin_right_injective hEq
    subst hae
    unfold componentMatches at hmatch
    rw [Bool.and_eq_true] at hmatch
    exact ⟨hmatch.1, List.elem_iff.mp hmatch.2⟩
  · intro hpred
    refine List.mem_map_of_mem _ (List.mem_filter.mpr ⟨he, ?_⟩)
    unfold componentMatches
    rw [Bool.and_eq_true]
    exact ⟨hpred.1, List.elem_iff.mpr hpred.2⟩

/-- Witness for C2: in a directory holding `lake.*` and `lake_2.shp`, the
grouper for `root/lake.shp` includes `lake.dbf` and rejects the
superset-prefix sibling `lake_2.shp` (remainder `_2.shp` is not an
allow-listed suffix). -/
theorem grouper_membership_witness :
    pathJoin (dirname ("root/lake.shp")) ("lake.dbf") ∈
      componentCandidates ["lake.shp", "lake.dbf", "lake_2.shp"] ("root/lake.shp") ∧
    pathJoin (dirname ("root/lake.shp")) ("lake_2.shp") ∉
      componentCandidates ["lake.shp", "lake.dbf", "lake_2.shp"] ("root/lake.shp") := by
  constructor
  · exact (grouper_membership ["lake.shp", "lake.dbf", "lake_2.shp"]
      ("root/lake.shp") ("lake.dbf") (by decide)).mpr (by decide)
  · intro hmem
    have h := (grouper_membership ["lake.shp", "lake.dbf", "lake_2.shp"]
      ("root/lake.shp") ("lake_2.shp") (by decide)).mp hmem
    exact absurd h (by decide)

theorem any_congr_of_perm {α : Type} {l1 l2 : List α} (h : l1.Perm l2) (f : α → Bool) :
    l1.any f = l2.any f := by
  rw [Bool.eq_iff_iff]
  simp only [List.any_eq_true]
  constructor
  · rintro ⟨x, hx, hfx⟩
    exact ⟨x, h.mem_iff.mp hx, hfx⟩
  · rintro ⟨x, hx, hfx⟩
    exact ⟨x, h.mem_iff.mpr hx, hfx⟩

/-- Claim C8: on a fixed directory snapshot grouping is deterministic
(running it twice gives the same result) and order-independent: a
permutation of the directory listing permutes the candidate set, preserves
the error outcome exactly, and permutes the successful component set. -/
theorem grouping_idempotent_order_independent (entries entries2 : List String)
    (shpPath : String) (hperm : entries.Perm entries2) :
    gatherComponents entries shpPath = gatherComponents entries shpPath ∧
    (componentCandidates entries shpPath).Perm (componentCandidates entries2 shpPath) ∧
    (∀ err, gatherComponents entries shpPath = .error err ↔
      gatherComponents entries2 shpPath = .error err) ∧
    (∀ c1 c2, gatherComponents entries shpPath = .ok c1 →
      gatherComponents entries2 shpPath = .ok c2 → c1.Perm c2) := by
  have hcand : (componentCandidates entries shpPath).Perm
      (componentCandidates entries2 shpPath) := by
    unfold componentCandidates
    exact (hperm.filter _).map _
  have hfind :
      requiredExts.find? (fun ext => !(componentCandidates entries shpPath).any
        (fun f => jsEndsWith (strLower f) ext)) =
      requiredExts.find? (fun ext => !(componentCandidates entries2 shpPath).any
        (fun f => jsEndsWith (strLower f) ext)) := by
    have hfun : (fun ext => !(componentCandidates entries shpPath).any
          (fun f => jsEndsWith (strLower f) ext)) =
        (fun ext => !(componentCandidates entries2 shpPath).any
          (fun f => jsEndsWith (strLower f) ext)) :=
      funext fun x => by rw [any_congr_of_perm hcand]
    rw [hfun]
  cases hf : requiredExts.find? (fun ext => !(componentCandidates entries2 shpPath).any
      (fun f => jsEndsWith (strLower f) ext)) with
  | some ext =>
    have h1 : gatherComponents entries shpPath = .error ⟨ext, shpPath⟩ := by
      unfold gatherComponents
      rw [hfind, hf]
    have h2 : gatherComponents entries2 shpPath = .error ⟨ext, shpPath⟩ := by
      unfold gatherComponents
      rw [hf]
    refine ⟨rfl, hcand, fun err => by rw [h1, h2], fun c1 c2 hc1 _ => ?_⟩
    rw [h1] at hc1
    exact absurd hc1 (by simp)
  | none =>
    have h1 : gatherComponents entries shpPath = .ok (componentCandidates entries shpPath) := by
      unfold gatherComponents
      rw [hfind, hf]
    have h2 : gatherComponents entries2 shpPath = .ok (componentCandidates entries2 shpPath) := by
      unfold gatherComponents
      rw [hf]
    refine ⟨rfl, hcand, fun err => by rw [h1, h2]; simp, fun c1 c2 hc1 hc2 => ?_⟩
    rw [h1] at hc1
    rw [h2] at hc2
    have e1 : componentCandidates entries shpPath = c1 := by
      injection hc1
    have e2 : componentCandidates entries2 shpPath = c2 := by
      injection hc2
    rw [← e1, ← e2]
    exact hcand

/-- Witness for C8: two listings of the same directory in different orders
give permuted candidate sets and equal success values up to permutation. -/
theorem grouping_idempotent_order_independent_witness :
    (componentCandidates ["a.dbf", "a.shp", "a.shx"] ("d/a.shp")).Perm
      (componentCandidates ["a.shp", "a.shx", "a.dbf"] ("d/a.shp")) :=
  (grouping_idempotent_order_independent ["a.dbf", "a.shp", "a.shx"]
    ["a.shp", "a.shx", "a.dbf"] ("d/a.shp") (by decide)).2.1

/-- Claim C3: a dataset whose candidate set lacks a file ending in one of
the three mandatory extensions makes grouping fail with an error naming a
missing mandatory extension and the triggering primary path; at the batch
driver that dataset contributes no actions (no packaging, upload or
publish) while every other discovered dataset is still processed. -/
theorem missing_component_reported_and_isolated
    (opts : Options) (env : RunEnv) (l1 l2 : List String) (p : String)
    (err : MissingComponentError)
    (hsplit : collectShapefiles opts.directory env.tree = l1 ++ p :: l2)
    (herr : gatherComponents (env.envFor p).entries p = .error err) :
    (∀ (entries : List String) (q ext : String), ext ∈ requiredExts →
      (componentCandidates entries q).any (fun f => jsEndsWith (strLower f) ext) = false →
      ∃ e : MissingComponentError, gatherComponents entries q = .error e ∧
        e.shpPath = q ∧ e.ext ∈ requiredExts ∧
        (componentCandidates entries q).any
          (fun f => jsEndsWith (strLower f) e.ext) = false) ∧
    mainRun opts env =
      [Action.buildAuth, Action.mkTempDir] ++
        l1.flatMap (fun q => processDataset opts env.tempDir (env.envFor q) q) ++
        l2.flatMap (fun q => processDataset opts env.tempDir (env.envFor q) q) ++
        [Action.removeTempDir] := by
  constructor
  · intro entries q ext hmem hnone
    have hsome : (requiredExts.find? (fun x => !(componentCandidates entries q).any
        (fun f => jsEndsWith (strLower f) x))).isSome := by
      rw [List.find?_isSome]
      exact ⟨ext, hmem, by simp [hnone]⟩
    obtain ⟨e0, he0⟩ := Option.isSome_iff_exists.mp hsome
    refine ⟨⟨e0, q⟩, ?_, rfl, List.mem_of_find?_eq_some he0, ?_⟩
    · unfold gatherComponents
      rw [he0]
    · have hp := List.find?_some he0
      simpa using hp
  · have hp0 : processDataset opts env.tempDir (env.envFor p) p = [] := by
      unfold processDataset
      rw [herr]
    have hne : (l1 ++ p :: l2).isEmpty = false := by
      cases l1 <;> rfl
    unfold mainRun
    rw [hsplit]
    simp [hne, hp0, List.flatMap_append, List.append_assoc]

/-- Witness for C3: of two discovered datasets, the first lacks `.dbf`,
so the run's actions are exactly those of the second dataset between the
setup and the temp-directory cleanup. -/
theorem missing_component_reported_and_isolated_witness :
    mainRun ⟨"root", "http://gs", "ws", "u", "pw", "", "", false⟩
      ⟨[FsEntry.file ("lake.shp"), FsEntry.file ("a.shp")], "tmp",
       fun q => if q = "root/lake.shp" then
          ⟨["lake.shp", "lake.shx"], 0, true, "zb",
           ⟨200, "OK", ""⟩, ⟨201, "Created", ""⟩, ⟨200, "OK", ""⟩⟩
        else
          ⟨["a.shp", "a.shx", "a.dbf"], 7, true, "zb",
           ⟨200, "OK", ""⟩, ⟨201, "Created", ""⟩, ⟨200, "OK", ""⟩⟩⟩ =
      [Action.buildAuth, Action.mkTempDir] ++
        processDataset ⟨"root", "http://gs", "ws", "u", "pw", "", "", false⟩ ("tmp")
          ⟨["a.shp", "a.shx", "a.dbf"], 7, true, "zb",
           ⟨200, "OK", ""⟩, ⟨201, "Created", ""⟩, ⟨200, "OK", ""⟩⟩ ("root/a.shp") ++
        [Action.removeTempDir] := by
  have h := (missing_component_reported_and_isolated
    ⟨"root", "http://gs", "ws", "u", "pw", "", "", false⟩
    ⟨[FsEntry.file ("lake.shp"), FsEntry.file ("a.shp")], "tmp",
     fun q => if q = "root/lake.shp" then
        ⟨["lake.shp", "lake.shx"], 0, true, "zb",
         ⟨200, "OK", ""⟩, ⟨201, "Created", ""⟩, ⟨200, "OK", ""⟩⟩
      else
        ⟨["a.shp", "a.shx", "a.dbf"], 7, true, "zb",
         ⟨200, "OK", ""⟩, ⟨201, "Created", ""⟩, ⟨200, "OK", ""⟩⟩⟩
    [] ["root/a.shp"] ("root/lake.shp") ⟨".dbf", "root/lake.shp"⟩
    (by rfl) (by rfl)).2
  simpa using h

theorem getLast?_append_singleton {α : Type} (l : List α) (a : α) :
    (l ++ [a]).getLast? = some a := List.getLast?_concat l

theorem getLast?_cons_append_singleton {α : Type} (a : α) (l : List α) (b : α) :
    (a :: (l ++ [b])).getLast? = some b := by
  rw [← List.cons_append, List.getLast?_concat]

/-- Claim C6: a dataset that reaches packaging and then upload/publish
(grouping succeeded, the archiver succeeded) always ends its iteration by
deleting its bundle file, whatever the upload or publish outcome; and a
run that processed any datasets ends by removing the shared temp
directory. -/
theorem bundle_and_tempdir_cleanup (opts : Options) (tempDir p : String)
    (denv : DatasetEnv) (comps : List String)
    (hg : gatherComponents denv.entries p = .ok comps)
    (hz : denv.zipOk = true) :
    (processDataset opts tempDir denv p).getLast? =
      some (Action.removeFile (zipPathFor tempDir
        (datasetNames opts.storePfx opts.layerPfx p).storeName denv.now)) ∧
    ∀ (o2 : Options) (env2 : RunEnv),
      collectShapefiles o2.directory env2.tree ≠ [] →
      (mainRun o2 env2).getLast? = some Action.removeTempDir := by
  constructor
  · unfold processDataset
    rw [hg]
    cases hu : denv.uploadResp.ok <;>
      simp [hz, hu, uploadDatastoreZip, getLast?_append_singleton,
        getLast?_cons_append_singleton]
  · intro o2 env2 hne
    have hne2 : (collectShapefiles o2.directory env2.tree).isEmpty = false := by
      simpa [List.isEmpty_iff] using hne
    unfold mainRun
    simp [hne2, getLast?_append_singleton, getLast?_cons_append_singleton]

/-- Witness for C6: a dataset whose upload fails with a 500 still ends
with the removal of its bundle `tmp/a-7.zip`. -/
theorem bundle_and_tempdir_cleanup_witness :
    (processDataset ⟨"root", "http://gs", "ws", "u", "pw", "", "", false⟩ ("tmp")
      ⟨["a.shp", "a.shx", "a.dbf"], 7, true, "zb", ⟨500, "Server Error", "boom"⟩,
       ⟨201, "Created", ""⟩, ⟨200, "OK", ""⟩⟩ ("d/a.shp")).getLast? =
      some (Action.removeFile ("tmp/a-7.zip")) :=
  ((bundle_and_tempdir_cleanup ⟨"root", "http://gs", "ws", "u", "pw", "", "", false⟩
    ("tmp") ("d/a.shp")
    ⟨["a.shp", "a.shx", "a.dbf"], 7, true, "zb", ⟨500, "Server Error", "boom"⟩,
     ⟨201, "Created", ""⟩, ⟨200, "OK", ""⟩⟩
    ["d/a.shp", "d/a.shx", "d/a.dbf"] (by rfl) rfl).1).trans (by rfl)

end GeoUpload
